import Mathlib

/-!
# Verification of the Torchelie training-loop orchestration core

Shallow embedding of `torchelie/recipes/trainandtest.py` and
`torchelie/recipes/classification.py`, together with the parts of the
orchestration framework (`DataLoop`, `DataModelLoop`, the callback
variants) that the recipes use.  The loop engine and the callbacks are
not part of the sources at hand, so they are modelled from the
specification; the recipe files themselves are embedded from the source.
-/

namespace Torchelie

/-! ## Model mode and gradient-tracking state

`model.train()` / `model.eval()` toggle a mode flag on the model;
`torch.no_grad()` is a context manager that disables gradient tracking
for its dynamic extent and restores the previous setting on exit, also
when the body raises. -/

inductive Mode where
  | train
  | eval
  deriving DecidableEq, Repr

structure TorchState where
  mode : Mode
  gradEnabled : Bool
  deriving DecidableEq, Repr

/-! ## `eval_call` (src/torchelie/recipes/trainandtest.py, lines 45-50)

```python
def eval_call(batch):
    model.eval()
    with torch.no_grad():
        out = test_fun(batch)
    model.train()
    return out
```

`test_fun` is modelled as a function that observes the torch state (so
that we can speak about the mode it runs under) and may raise, i.e.
return `Except.error`.  The `with` block restores the gradient flag on
both exits; `model.train()` runs only when `test_fun` did not raise. -/

def eval_call {α β ε : Type} (test_fun : TorchState → α → Except ε β)
    (s : TorchState) (batch : α) : Except ε β × TorchState :=
  let s1 : TorchState := { s with mode := Mode.eval }
  let saved := s1.gradEnabled
  let s2 : TorchState := { s1 with gradEnabled := false }
  match test_fun s2 batch with
  | Except.ok out =>
      let s3 : TorchState := { s2 with gradEnabled := saved }
      (Except.ok out, { s3 with mode := Mode.train })
  | Except.error e =>
      let s3 : TorchState := { s2 with gradEnabled := saved }
      (Except.error e, s3)

/-- The state `test_fun` observes inside `eval_call`. -/
def eval_call_innerState (_s : TorchState) : TorchState :=
  { mode := Mode.eval, gradEnabled := false, }

/-! ## The test `DataLoop` pass

Modelled from the spec: `DataLoop` (spec section 4.1) is not among the
sources at hand; per the spec, one pass iterates the batch sequence in
order and, for each batch, invokes the prologue callbacks, then the
per-batch function, then the epilogue callbacks; if the per-batch
function raises, the loop is fail-fast: no epilogue runs for that batch
and the error propagates.  The trace records, for every prologue
invocation, per-batch-function invocation and epilogue invocation, the
torch state it runs under. -/

inductive TestEvent where
  | prologueRun (mode : Mode) (gradEnabled : Bool)
  | stepRun (mode : Mode) (gradEnabled : Bool)
  | epilogueRun (mode : Mode) (gradEnabled : Bool)
  deriving DecidableEq, Repr

def testPassRun {α β ε : Type} (test_fun : TorchState → α → Except ε β) :
    List α → TorchState → Except ε Unit × TorchState × List TestEvent
  | [], s => (Except.ok (), s, [])
  | b :: bs, s =>
      match (eval_call test_fun s b).1 with
      | Except.ok _ =>
          ((testPassRun test_fun bs (eval_call test_fun s b).2).1,
           (testPassRun test_fun bs (eval_call test_fun s b).2).2.1,
           TestEvent.prologueRun s.mode s.gradEnabled ::
             TestEvent.stepRun (eval_call_innerState s).mode
               (eval_call_innerState s).gradEnabled ::
             TestEvent.epilogueRun (eval_call test_fun s b).2.mode
               (eval_call test_fun s b).2.gradEnabled ::
             (testPassRun test_fun bs (eval_call test_fun s b).2).2.2)
      | Except.error e =>
          (Except.error e, (eval_call test_fun s b).2,
           [TestEvent.prologueRun s.mode s.gradEnabled,
            TestEvent.stepRun (eval_call_innerState s).mode
              (eval_call_innerState s).gradEnabled])

/-! ## Callback wiring of `TrainAndTest.__init__`
(src/torchelie/recipes/trainandtest.py, lines 34-67)

The constructor registers a fixed callback set on the training loop and the
test loop.  Callbacks are represented by descriptors carrying their
constructor arguments as they appear at the call sites. -/

inductive CallbackDesc where
  | counter
  | callDataLoop (test_every : Int)
  | visdomLogger (visdom_env : Option String) (log_every : Int) (pfx : String)
  | stdoutLogger (log_every : Int) (pfx : String)
  | checkpoint (path : String)
  | accAvg (post_each_batch : Bool)
  deriving DecidableEq, Repr

/-- Python `a or b` for an optional string operand: `None` and the empty
string are falsy, so they select `b`. -/
def pyOr (a : Option String) (b : String) : String :=
  match a with
  | none => b
  | some s => if s = "" then b else s

structure LoopWiring where
  prologues : List CallbackDesc
  epilogues : List CallbackDesc
  deriving DecidableEq, Repr

/-- Modelled from the spec: callback registration appends to the loop's
ordered prologue list (insertion order is invocation order). -/
def add_prologues (w : LoopWiring) (cbs : List CallbackDesc) : LoopWiring :=
  { w with prologues := w.prologues ++ cbs }

/-- Modelled from the spec: callback registration appends to the loop's
ordered epilogue list (insertion order is invocation order). -/
def add_epilogues (w : LoopWiring) (cbs : List CallbackDesc) : LoopWiring :=
  { w with epilogues := w.epilogues ++ cbs }

structure TrainAndTestWiring where
  train_loop : LoopWiring
  test_loop : LoopWiring
  deriving DecidableEq, Repr

/-- The callback wiring performed by `TrainAndTest.__init__`
(src lines 52-67), as a function of the constructor arguments
`test_every`, `visdom_env` and `log_every`. -/
def TrainAndTest_init (test_every : Int) (visdom_env : Option String)
    (log_every : Int) : TrainAndTestWiring :=
  let train_loop : LoopWiring := { prologues := [], epilogues := [] }
  let test_loop : LoopWiring := { prologues := [], epilogues := [] }
  let train_loop := add_prologues train_loop [CallbackDesc.counter]
  let train_loop := add_epilogues train_loop
    [CallbackDesc.callDataLoop test_every,
     CallbackDesc.visdomLogger visdom_env log_every "",
     CallbackDesc.stdoutLogger log_every ""]
  let test_loop := add_epilogues test_loop
    [CallbackDesc.visdomLogger visdom_env (-1) "test_",
     CallbackDesc.stdoutLogger (-1) "Test",
     CallbackDesc.checkpoint (pyOr visdom_env "model" ++ "/ckpt")]
  { train_loop := train_loop, test_loop := test_loop }

/-- The path handed to the `Checkpoint` callback (src line 66). -/
def ckptPath (visdom_env : Option String) : String :=
  pyOr visdom_env "model" ++ "/ckpt"

/-! ## The `fit` loop

Modelled from the spec: `DataModelLoop.run` (spec section 4.2) and the
callback variants (spec section 4.3) are not among the sources at hand.
Per the spec, `fit(n)` repeatedly iterates the training batch sequence,
re-iterating from the start when exhausted, incrementing the global
iteration counter once per batch until it reaches `n`; the `Counter`
prologue exposes the up-to-date index, the training step runs, then the
epilogues run in registration order: `CallDataLoop` (which fires a full
test pass when `test_every` iterations have elapsed since the last
trigger), `VisdomLogger` and `StdoutLogger`.  The run is recorded as a
trace of observable events. -/

inductive Event where
  | trainStep (iter : Nat) (batchIdx : Nat)
  | testPass (iter : Nat)
  | visdomPush (env : String) (pfx : String) (iter : Nat)
  | stdoutWrite (pfx : String) (iter : Nat)
  | ckptWrite (path : String) (content : Nat)
  deriving DecidableEq, Repr

structure FitState where
  counter : Nat
  batchIdx : Nat
  lastTrigger : Nat
  testPasses : Nat
  ckptFS : String → Option Nat
  trace : List Event

/-- Modelled from the spec: `VisdomLogger` pushes the current metrics to the
endpoint named by `visdom_env` every `log_every` iterations; it is a no-op
when `visdom_env` is `None`. -/
def visdomLoggerEvents (visdom_env : Option String) (log_every : Int)
    (pfx : String) (iter : Nat) : List Event :=
  match visdom_env with
  | none => []
  | some env =>
      if 0 < log_every ∧ (iter : Int) % log_every = 0 then
        [Event.visdomPush env pfx iter]
      else []

/-- Modelled from the spec: `VisdomLogger` with a negative `log_every` logs
at pass end; a no-op when `visdom_env` is `None`. -/
def visdomLoggerPassEnd (visdom_env : Option String) (log_every : Int)
    (pfx : String) (iter : Nat) : List Event :=
  match visdom_env with
  | none => []
  | some env =>
      if log_every < 0 then [Event.visdomPush env pfx iter] else []

/-- Modelled from the spec: `StdoutLogger` has the same triggering rule as
`VisdomLogger` but writes to standard output. -/
def stdoutLoggerEvents (log_every : Int) (pfx : String) (iter : Nat) :
    List Event :=
  if 0 < log_every ∧ (iter : Int) % log_every = 0 then
    [Event.stdoutWrite pfx iter]
  else []

/-- Modelled from the spec: one full pass over the test batch sequence,
run synchronously by `CallDataLoop` at global iteration `c`, followed by
the test-loop epilogues wired in `TrainAndTest.__init__`: a pass-end
Visdom push with key prefix `test_`, a stdout line with prefix `Test`,
and a `Checkpoint` write that serializes the training loop's state
(represented by its iteration counter) to `ckptPath visdom_env`,
overwriting any prior checkpoint at that path. -/
def runTestPassAt (visdom_env : Option String) (c : Nat)
    (fs : String → Option Nat) : (String → Option Nat) × List Event :=
  (fun p => if p = ckptPath visdom_env then some c else fs p,
   Event.testPass c ::
     (visdomLoggerPassEnd visdom_env (-1) "test_" c ++
       [Event.stdoutWrite "Test" c,
        Event.ckptWrite (ckptPath visdom_env) c]))

/-- One training iteration of the `fit` loop: `Counter` prologue, the
model's training step on the next batch of the (cyclically re-iterated)
training sequence, then the epilogues in registration order
(`CallDataLoop`, `VisdomLogger`, `StdoutLogger`).  `CallDataLoop` fires
when at least `test_every` iterations have elapsed since its last
trigger (modelled from the spec). -/
def fitStep (test_every : Int) (visdom_env : Option String) (log_every : Int)
    (nBatches : Nat) (s : FitState) : FitState :=
  let c := s.counter + 1
  let next : FitState :=
    { s with
        counter := c,
        batchIdx := (s.batchIdx + 1) % nBatches,
        trace := s.trace ++ [Event.trainStep c s.batchIdx] }
  if 0 < test_every ∧ (s.lastTrigger : Int) + test_every ≤ (c : Int) then
    let tp := runTestPassAt visdom_env c next.ckptFS
    { next with
        lastTrigger := c,
        testPasses := s.testPasses + 1,
        ckptFS := tp.1,
        trace := next.trace ++ tp.2 ++
          visdomLoggerEvents visdom_env log_every "" c ++
          stdoutLoggerEvents log_every "" c }
  else
    { next with
        trace := next.trace ++
          visdomLoggerEvents visdom_env log_every "" c ++
          stdoutLoggerEvents log_every "" c }

def fitInitState : FitState :=
  { counter := 0, batchIdx := 0, lastTrigger := 0,
    testPasses := 0, ckptFS := fun _ => none, trace := [] }

/-- `TrainAndTest.fit(n)` (src lines 78-88) delegates to
`train_loop.run(n)`; the loop drives `n` training iterations. -/
def fitRun (test_every : Int) (visdom_env : Option String) (log_every : Int)
    (nBatches : Nat) : Nat → FitState
  | 0 => fitInitState
  | Nat.succ n =>
      fitStep test_every visdom_env log_every nBatches
        (fitRun test_every visdom_env log_every nBatches n)

/-- The global iteration index of a training-step event. -/
def getTrainStepIter : Event → Option Nat
  | Event.trainStep i _ => some i
  | _ => none

/-- The global iteration index at which a test pass ran. -/
def getTestPassIter : Event → Option Nat
  | Event.testPass i => some i
  | _ => none

/-- Whether an event is a push to the remote visualization endpoint. -/
def isVisdomPush : Event → Bool
  | Event.visdomPush _ _ _ => true
  | _ => false

/-- The path argument of a `Checkpoint` callback descriptor. -/
def getCkptPathOf : CallbackDesc → Option String
  | CallbackDesc.checkpoint p => some p
  | _ => none

/-! ## `CrossEntropyLearner` (src/torchelie/recipes/classification.py,
lines 86-119)

The torch operations the step functions perform are recorded on a tape:
`opt.zero_grad()` clears accumulated gradients, `loss.backward()`
deposits them, `opt.step()` applies one parameter update.  The model
itself and the loss are abstract functions `modelF` and `ce`, so the
returned values can be related to the inputs. -/

inductive TorchOp where
  | zeroGrad
  | forwardOp
  | crossEntropyOp
  | backwardOp
  | stepOp
  deriving DecidableEq, Repr

structure OptTape where
  gradZeroed : Bool
  gradComputed : Bool
  optSteps : Nat
  ops : List TorchOp
  deriving Repr

def opt_zero_grad (t : OptTape) : OptTape :=
  { t with gradZeroed := true, gradComputed := false,
           ops := t.ops ++ [TorchOp.zeroGrad] }

def loss_backward (t : OptTape) : OptTape :=
  { t with gradComputed := true, gradZeroed := false,
           ops := t.ops ++ [TorchOp.backwardOp] }

def opt_step (t : OptTape) : OptTape :=
  { t with optSteps := t.optSteps + 1, ops := t.ops ++ [TorchOp.stepOp] }

def model_forward {α β : Type} (modelF : α → β) (x : α) (t : OptTape) :
    β × OptTape :=
  (modelF x, { t with ops := t.ops ++ [TorchOp.forwardOp] })

def cross_entropy {β γ δ : Type} (ce : β → γ → δ) (pred : β) (y : γ)
    (t : OptTape) : δ × OptTape :=
  (ce pred y, { t with ops := t.ops ++ [TorchOp.crossEntropyOp] })

inductive StepVal (β δ : Type) where
  | lossVal (v : δ)
  | predVal (v : β)
  deriving DecidableEq, Repr

/-- `CrossEntropyLearner.train_step` (src lines 103-110):
`opt.zero_grad(); pred = self.forward(x); loss = cross_entropy(pred, y);
loss.backward(); opt.step(); return {'loss': loss, 'pred': pred}`. -/
def CrossEntropyLearner_train_step {α β γ δ : Type} (modelF : α → β)
    (ce : β → γ → δ) (batch : α × γ) (t : OptTape) :
    List (String × StepVal β δ) × OptTape :=
  let x := batch.1
  let y := batch.2
  let t1 := opt_zero_grad t
  let fw := model_forward modelF x t1
  let ls := cross_entropy ce fw.1 y fw.2
  let t4 := loss_backward ls.2
  let t5 := opt_step t4
  ([("loss", StepVal.lossVal ls.1), ("pred", StepVal.predVal fw.1)], t5)

/-- `CrossEntropyLearner.validation_step` (src lines 112-116):
`pred = self.forward(x); loss = cross_entropy(pred, y);
return {'loss': loss, 'pred': pred}`. -/
def CrossEntropyLearner_validation_step {α β γ δ : Type} (modelF : α → β)
    (ce : β → γ → δ) (batch : α × γ) (t : OptTape) :
    List (String × StepVal β δ) × OptTape :=
  let x := batch.1
  let y := batch.2
  let fw := model_forward modelF x t
  let ls := cross_entropy ce fw.1 y fw.2
  ([("loss", StepVal.lossVal ls.1), ("pred", StepVal.predVal fw.1)], ls.2)

/-! ## The `Classification.__init__` call into `TrainAndTest.__init__`
(src/torchelie/recipes/classification.py lines 49-66 and
src/torchelie/recipes/trainandtest.py lines 34-43) -/

structure PyParam where
  name : String
  hasDefault : Bool
  deriving DecidableEq, Repr

/-- The parameter list of `TrainAndTest.__init__` (src lines 34-43),
`self` excluded; the first five parameters have no default. -/
def trainAndTestParams : List PyParam :=
  [⟨"model", false⟩, ⟨"train_fun", false⟩, ⟨"test_fun", false⟩,
   ⟨"train_loader", false⟩, ⟨"test_loader", false⟩,
   ⟨"test_every", true⟩, ⟨"visdom_env", true⟩, ⟨"log_every", true⟩,
   ⟨"device", true⟩]

/-- The keyword-argument names `Classification.__init__` passes to
`super().__init__` (src/torchelie/recipes/classification.py lines 56-66). -/
def classificationSuperKwargs : List String :=
  ["model", "visdom_env", "test_every", "train_callbacks", "test_callbacks",
   "device"]

/-- Python keyword-only call binding against a parameter list without
`**kwargs`: the call binds if and only if every keyword names a parameter
and every parameter without a default receives a keyword; otherwise the
call raises `TypeError`. -/
def bindsKwargs (params : List PyParam) (kwargs : List String) : Bool :=
  kwargs.all (fun kw => params.any (fun p => p.name == kw)) &&
  params.all (fun p => p.hasDefault || kwargs.contains p.name)

/-- The callback lists `Classification.__init__` forwards to
`super().__init__` as `train_callbacks` and `test_callbacks`
(src/torchelie/recipes/classification.py lines 60-65), as a function of
the caller-supplied `train_callbacks` and `test_callbacks` arguments:
the fixed lists `[AccAvg()]` and `[AccAvg(post_each_batch=False)]`. -/
def Classification_forwardedCallbacks
    (_train_callbacks _test_callbacks : List CallbackDesc) :
    List CallbackDesc × List CallbackDesc :=
  ([CallbackDesc.accAvg true], [CallbackDesc.accAvg false])

/-- `CrossEntropyClassification.__init__` hands its own callback arguments
to `Classification` unchanged (src lines 151-156), which then forwards
its fixed lists instead. -/
def CrossEntropyClassification_forwardedCallbacks
    (train_callbacks test_callbacks : List CallbackDesc) :
    List CallbackDesc × List CallbackDesc :=
  Classification_forwardedCallbacks train_callbacks test_callbacks

end Torchelie

namespace Torchelie

/-! ### Basic facts about `eval_call` -/

theorem eval_call_ok_state {α β ε : Type} (test_fun : TorchState → α → Except ε β)
    (s : TorchState) (b : α) (out : β)
    (h : (eval_call test_fun s b).1 = Except.ok out) :
    (eval_call test_fun s b).2 =
      { mode := Mode.train, gradEnabled := s.gradEnabled, } := by
  unfold eval_call at h ⊢
  cases htf : test_fun { s with mode := Mode.eval, gradEnabled := false } b <;>
    simp [htf] at h ⊢

theorem eval_call_error_state {α β ε : Type} (test_fun : TorchState → α → Except ε β)
    (s : TorchState) (b : α) (e : ε)
    (h : (eval_call test_fun s b).1 = Except.error e) :
    (eval_call test_fun s b).2 =
      { mode := Mode.eval, gradEnabled := s.gradEnabled, } := by
  unfold eval_call at h ⊢
  cases htf : test_fun { s with mode := Mode.eval, gradEnabled := false } b <;>
    simp [htf] at h ⊢

theorem eval_call_inner_noGrad (s : TorchState) :
    (eval_call_innerState s).mode = Mode.eval ∧
      (eval_call_innerState s).gradEnabled = false := by
  constructor <;> rfl

/-- Full characterization of a test pass: every per-batch invocation of the
step function runs in eval mode with gradients disabled; every epilogue
invocation runs in train mode; the gradient-tracking flag is restored on all
exits; train mode is restored when the pass succeeds, but after a raising
batch the model is left in eval mode. -/
theorem testPassRun_trace_spec {α β ε : Type} (f : TorchState → α → Except ε β) :
    ∀ (batches : List α) (s : TorchState),
      (∀ m g, TestEvent.stepRun m g ∈ (testPassRun f batches s).2.2 →
          m = Mode.eval ∧ g = false) ∧
      (∀ m g, TestEvent.epilogueRun m g ∈ (testPassRun f batches s).2.2 →
          m = Mode.train) ∧
      (testPassRun f batches s).2.1.gradEnabled = s.gradEnabled ∧
      ((testPassRun f batches s).1 = Except.ok () → s.mode = Mode.train →
          (testPassRun f batches s).2.1.mode = Mode.train) ∧
      (∀ e, (testPassRun f batches s).1 = Except.error e →
          (testPassRun f batches s).2.1.mode = Mode.eval) := by
  intro batches
  induction batches with
  | nil =>
      intro s
      refine ⟨?_, ?_, rfl, ?_, ?_⟩ <;> simp [testPassRun]
  | cons b bs ih =>
      intro s
      rcases hr : (eval_call f s b).1 with e | out
      · -- the batch raised: no epilogue, model left in eval mode
        have hst := eval_call_error_state f s b e hr
        refine ⟨?_, ?_, ?_, ?_, ?_⟩ <;>
          simp [testPassRun, hr, hst, eval_call_innerState]
      · -- the batch succeeded: train mode restored before the epilogues
        have hst := eval_call_ok_state f s b out hr
        have ih' := ih (eval_call f s b).2
        rw [hst] at ih'
        refine ⟨?_, ?_, ?_, ?_, ?_⟩
        · intro m g hm
          simp [testPassRun, hr, hst, eval_call_innerState] at hm
          rcases hm with hm | hm
          · exact ⟨hm.1, hm.2⟩
          · exact ih'.1 m g hm
        · intro m g hm
          simp [testPassRun, hr, hst, eval_call_innerState] at hm
          rcases hm with hm | hm
          · exact hm.1
          · exact ih'.2.1 m g hm
        · simp only [testPassRun, hr, hst]
          rw [ih'.2.2.1]
        · intro hok _
          simp only [testPassRun, hr, hst] at hok ⊢
          exact ih'.2.2.2.1 hok rfl
        · intro e he
          simp only [testPassRun, hr, hst] at he ⊢
          exact ih'.2.2.2.2 e he

/-- C1 counterexample: a test pass whose single batch raises leaves the model
in eval mode, not training mode — `model.train()` in `eval_call` is only
reached when `test_fun` returns normally, so the claim that the model is back
in training mode even if a test batch's step function raises is false. -/
theorem C1_mode_restore_counterexample :
    (testPassRun (fun _ (_ : Unit) => (Except.error () : Except Unit Unit)) [()]
        { mode := Mode.train, gradEnabled := true }).1 = Except.error () ∧
    ¬ (testPassRun (fun _ (_ : Unit) => (Except.error () : Except Unit Unit)) [()]
        { mode := Mode.train, gradEnabled := true }).2.1.mode = Mode.train := by
  exact ⟨rfl, by decide⟩

/-- C1 (amended): during every batch of a test pass the model is in eval mode
with gradient tracking disabled; the gradient-tracking flag is restored after
the pass even if a batch raises; and the model is back in training mode after
the pass completes provided no test batch's step function raised — after a
raising batch the model is left in eval mode. -/
theorem C1_inference_mode_during_test_pass {α β ε : Type}
    (test_fun : TorchState → α → Except ε β) (batches : List α) (s : TorchState) :
    (∀ m g, TestEvent.stepRun m g ∈ (testPassRun test_fun batches s).2.2 →
        m = Mode.eval ∧ g = false) ∧
    (testPassRun test_fun batches s).2.1.gradEnabled = s.gradEnabled ∧
    ((testPassRun test_fun batches s).1 = Except.ok () → s.mode = Mode.train →
        (testPassRun test_fun batches s).2.1.mode = Mode.train) ∧
    (∀ e, (testPassRun test_fun batches s).1 = Except.error e →
        (testPassRun test_fun batches s).2.1.mode = Mode.eval) :=
  ⟨(testPassRun_trace_spec test_fun batches s).1,
   (testPassRun_trace_spec test_fun batches s).2.2.1,
   (testPassRun_trace_spec test_fun batches s).2.2.2.1,
   (testPassRun_trace_spec test_fun batches s).2.2.2.2⟩

/-- Witness for the amended C1 theorem at a concrete one-batch pass. -/
theorem C1_inference_mode_during_test_pass_witness :
    (testPassRun (fun _ (_ : Unit) => (Except.ok () : Except Unit Unit)) [()]
        { mode := Mode.train, gradEnabled := true }).2.1.mode = Mode.train ∧
    (Mode.eval = Mode.eval ∧ false = false) :=
  ⟨(C1_inference_mode_during_test_pass
        (fun _ (_ : Unit) => (Except.ok () : Except Unit Unit)) [()]
        { mode := Mode.train, gradEnabled := true }).2.2.1 rfl rfl,
   (C1_inference_mode_during_test_pass
        (fun _ (_ : Unit) => (Except.ok () : Except Unit Unit)) [()]
        { mode := Mode.train, gradEnabled := true }).1 Mode.eval false (by decide)⟩

/-- C10: the train/inference mode switch happens per test batch — every
invocation of the test step function observes eval mode, and every test-loop
epilogue invocation (including the checkpoint write) observes the model
already back in training mode. -/
theorem C10_per_batch_mode_switch {α β ε : Type}
    (test_fun : TorchState → α → Except ε β) (batches : List α) (s : TorchState) :
    (∀ m g, TestEvent.stepRun m g ∈ (testPassRun test_fun batches s).2.2 →
        m = Mode.eval) ∧
    (∀ m g, TestEvent.epilogueRun m g ∈ (testPassRun test_fun batches s).2.2 →
        m = Mode.train) :=
  ⟨fun m g hm => ((testPassRun_trace_spec test_fun batches s).1 m g hm).1,
   fun m g hm => (testPassRun_trace_spec test_fun batches s).2.1 m g hm⟩

/-- Witness for the C10 theorem at a concrete one-batch pass. -/
theorem C10_per_batch_mode_switch_witness :
    Mode.train = Mode.train :=
  (C10_per_batch_mode_switch
      (fun _ (_ : Unit) => (Except.ok () : Except Unit Unit)) [()]
      { mode := Mode.train, gradEnabled := true }).2 Mode.train true (by decide)

/-! ### Facts about the `fit` loop -/

theorem fitRun_counter (te : Int) (env : Option String) (le : Int)
    (B n : Nat) : (fitRun te env le B n).counter = n := by
  induction n with
  | zero => rfl
  | succ n ih =>
      simp only [fitRun, fitStep]
      split <;> simp [ih]

theorem visdomLoggerEvents_no_trainStep (env : Option String) (le : Int)
    (pfx : String) (i : Nat) :
    (visdomLoggerEvents env le pfx i).filterMap getTrainStepIter = [] := by
  cases env with
  | none => rfl
  | some e =>
      simp only [visdomLoggerEvents]
      split <;> rfl

theorem visdomLoggerEvents_no_testPass (env : Option String) (le : Int)
    (pfx : String) (i : Nat) :
    (visdomLoggerEvents env le pfx i).filterMap getTestPassIter = [] := by
  cases env with
  | none => rfl
  | some e =>
      simp only [visdomLoggerEvents]
      split <;> rfl

theorem stdoutLoggerEvents_no_trainStep (le : Int) (pfx : String) (i : Nat) :
    (stdoutLoggerEvents le pfx i).filterMap getTrainStepIter = [] := by
  unfold stdoutLoggerEvents
  split <;> rfl

theorem stdoutLoggerEvents_no_testPass (le : Int) (pfx : String) (i : Nat) :
    (stdoutLoggerEvents le pfx i).filterMap getTestPassIter = [] := by
  unfold stdoutLoggerEvents
  split <;> rfl

theorem stdoutLoggerEvents_no_visdom (le : Int) (pfx : String) (i : Nat) :
    (stdoutLoggerEvents le pfx i).countP isVisdomPush = 0 := by
  unfold stdoutLoggerEvents
  split <;> rfl

theorem visdomLoggerPassEnd_no_trainStep (env : Option String) (le : Int)
    (pfx : String) (i : Nat) :
    (visdomLoggerPassEnd env le pfx i).filterMap getTrainStepIter = [] := by
  cases env with
  | none => rfl
  | some e =>
      simp only [visdomLoggerPassEnd]
      split <;> rfl

theorem visdomLoggerPassEnd_no_testPass (env : Option String) (le : Int)
    (pfx : String) (i : Nat) :
    (visdomLoggerPassEnd env le pfx i).filterMap getTestPassIter = [] := by
  cases env with
  | none => rfl
  | some e =>
      simp only [visdomLoggerPassEnd]
      split <;> rfl

theorem runTestPass_no_trainStep (env : Option String) (c : Nat)
    (fs : String → Option Nat) :
    ((runTestPassAt env c fs).2).filterMap getTrainStepIter = [] := by
  simp [runTestPassAt, getTrainStepIter, visdomLoggerPassEnd_no_trainStep]

theorem runTestPass_testPass_iters (env : Option String) (c : Nat)
    (fs : String → Option Nat) :
    ((runTestPassAt env c fs).2).filterMap getTestPassIter = [c] := by
  simp [runTestPassAt, getTestPassIter, visdomLoggerPassEnd_no_testPass]

theorem runTestPass_none_no_visdom (c : Nat) (fs : String → Option Nat) :
    ((runTestPassAt none c fs).2).countP isVisdomPush = 0 := rfl

/-- Invariant of the periodic-test trigger for a positive period: the last
trigger sits at the largest multiple of the period not exceeding the
iteration count, the number of completed passes is the corresponding
quotient, and the checkpoint store holds exactly the state of the most
recent pass at the checkpoint path, nothing elsewhere. -/
theorem fitRun_trigger_invariant (te : Int) (env : Option String) (le : Int)
    (B : Nat) (hte : 0 < te) (n : Nat) :
    (fitRun te env le B n).lastTrigger =
        te.toNat * (fitRun te env le B n).testPasses ∧
    te.toNat * (fitRun te env le B n).testPasses ≤ n ∧
    n < te.toNat * ((fitRun te env le B n).testPasses + 1) ∧
    (∀ p, p ≠ ckptPath env → (fitRun te env le B n).ckptFS p = none) ∧
    ((fitRun te env le B n).ckptFS (ckptPath env) =
      if (fitRun te env le B n).testPasses = 0 then none
      else some ((fitRun te env le B n).lastTrigger)) := by
  induction n with
  | zero =>
      refine ⟨by simp [fitRun, fitInitState], by simp [fitRun, fitInitState],
        ?_, ?_, by simp [fitRun, fitInitState]⟩
      · simp only [fitRun, fitInitState]
        omega
      · intro p _
        simp [fitRun, fitInitState]
  | succ n ih =>
      obtain ⟨hL, hlow, hhigh, hfs, hck⟩ := ih
      have hc := fitRun_counter te env le B n
      rw [Nat.mul_succ] at hhigh
      simp only [fitRun, fitStep]
      by_cases h : 0 < te ∧
          ((fitRun te env le B n).lastTrigger : Int) + te ≤
            (((fitRun te env le B n).counter + 1 : Nat) : Int)
      · -- the trigger fired at iteration n + 1
        rw [if_pos h]
        have h2 := h.2
        rw [hL, hc] at h2
        have heq : n + 1 =
            te.toNat * (fitRun te env le B n).testPasses + te.toNat := by
          omega
        dsimp only
        refine ⟨?_, ?_, ?_, ?_, ?_⟩
        · rw [Nat.mul_succ, hc]
          omega
        · rw [Nat.mul_succ]
          omega
        · rw [Nat.mul_succ, Nat.mul_succ]
          omega
        · intro p hp
          simp [runTestPassAt, hp, hfs p hp]
        · simp [runTestPassAt]
      · -- period not yet elapsed: state of the trigger is unchanged
        rw [if_neg h]
        have h' : ¬ (((fitRun te env le B n).lastTrigger : Int) + te ≤
            (((fitRun te env le B n).counter + 1 : Nat) : Int)) :=
          fun hh => h ⟨hte, hh⟩
        rw [hL, hc] at h'
        dsimp only
        refine ⟨hL, by omega, ?_, hfs, hck⟩
        rw [Nat.mul_succ]
        omega

/-- With a non-positive `test_every` the periodic trigger never fires: no
test pass runs and no checkpoint is ever written. -/
theorem fitRun_no_trigger (te : Int) (env : Option String) (le : Int)
    (B : Nat) (hte : te ≤ 0) (n : Nat) :
    (fitRun te env le B n).testPasses = 0 ∧
    (∀ p, (fitRun te env le B n).ckptFS p = none) := by
  induction n with
  | zero => exact ⟨rfl, fun _ => rfl⟩
  | succ n ih =>
      simp only [fitRun, fitStep]
      split_ifs with h
      · exact absurd h.1 (by omega)
      · simpa using ih

/-- C2: `fit(n)` performs exactly `n` training-step invocations — one per
global iteration `1..n` in order — for every length of the training batch
sequence: multi-epoch wraparound neither skips nor duplicates the counter. -/
theorem C2_fit_exact_iterations (te : Int) (env : Option String) (le : Int)
    (B n : Nat) :
    (fitRun te env le B n).counter = n ∧
    (fitRun te env le B n).trace.filterMap getTrainStepIter =
      List.range' 1 n := by
  refine ⟨fitRun_counter te env le B n, ?_⟩
  induction n with
  | zero => rfl
  | succ n ih =>
      have hc := fitRun_counter te env le B n
      simp only [fitRun, fitStep]
      split_ifs with h <;>
        simp [List.filterMap_append, ih, hc, getTrainStepIter,
              visdomLoggerEvents_no_trainStep, stdoutLoggerEvents_no_trainStep,
              runTestPass_no_trainStep, List.range'_concat, Nat.add_comm]

/-- C3: with a positive test period `k = test_every`, `fit(n)` completes
exactly `⌊n / k⌋` test passes (zero when `n < k`); a non-positive
`test_every` never fires the periodic trigger; and with `test_every = 2`
and `n = 5` the test passes run exactly after training iterations 2 and 4,
none after iteration 5. -/
theorem C3_test_pass_count (te : Int) (env : Option String) (le : Int)
    (B n : Nat) :
    (0 < te → (fitRun te env le B n).testPasses = n / te.toNat) ∧
    (te ≤ 0 → (fitRun te env le B n).testPasses = 0) ∧
    (fitRun 2 (some "main") 10 3 5).trace.filterMap getTestPassIter =
      [2, 4] := by
  refine ⟨?_, ?_, rfl⟩
  · intro hte
    obtain ⟨_, hlow, hhigh, _, _⟩ := fitRun_trigger_invariant te env le B hte n
    exact (Nat.div_eq_of_lt_le (by rwa [Nat.mul_comm] at hlow)
      (by rwa [Nat.mul_comm] at hhigh)).symm
  · intro hte
    exact (fitRun_no_trigger te env le B hte n).1

/-- Witnesses for C3 at `test_every = 2, n = 5` and at a negative period. -/
theorem C3_test_pass_count_witness :
    (fitRun 2 (some "main") 10 3 5).testPasses = 5 / (2 : Int).toNat ∧
    (fitRun (-3) (some "main") 10 3 7).testPasses = 0 :=
  ⟨(C3_test_pass_count 2 (some "main") 10 3 5).1 (by decide),
   (C3_test_pass_count (-3) (some "main") 10 3 7).2.1 (by decide)⟩

/-- C5: `TrainAndTest.__init__` wires the callbacks in a fixed,
non-configurable order: training prologues are exactly `[Counter]`;
training epilogues are exactly `[CallDataLoop(test loop, test_every),
VisdomLogger, StdoutLogger]`; test epilogues are exactly
`[VisdomLogger(prefix "test_"), StdoutLogger(prefix "Test"), Checkpoint]`. -/
theorem C5_wiring_order (te : Int) (env : Option String) (le : Int) :
    (TrainAndTest_init te env le).train_loop.prologues =
      [CallbackDesc.counter] ∧
    (TrainAndTest_init te env le).train_loop.epilogues =
      [CallbackDesc.callDataLoop te,
       CallbackDesc.visdomLogger env le "",
       CallbackDesc.stdoutLogger le ""] ∧
    (TrainAndTest_init te env le).test_loop.epilogues =
      [CallbackDesc.visdomLogger env (-1) "test_",
       CallbackDesc.stdoutLogger (-1) "Test",
       CallbackDesc.checkpoint (pyOr env "model" ++ "/ckpt")] :=
  ⟨rfl, rfl, rfl⟩

/-- C7: with `visdom_env = None` every visualization-logging invocation is
a no-op: a `fit(n)` run completes all `n` iterations and its trace contains
no push to the remote visualization endpoint. -/
theorem C7_visdom_none_silent (te le : Int) (B n : Nat) :
    (fitRun te none le B n).counter = n ∧
    (fitRun te none le B n).trace.countP isVisdomPush = 0 := by
  refine ⟨fitRun_counter te none le B n, ?_⟩
  induction n with
  | zero => rfl
  | succ n ih =>
      simp only [fitRun, fitStep]
      split_ifs with h <;>
        simp [List.countP_append, ih, isVisdomPush, visdomLoggerEvents,
              stdoutLoggerEvents_no_visdom, runTestPass_none_no_visdom]

/-- C8: the checkpoint is written to `<visdom_env or 'model'>/ckpt`, and
after any number of completed test passes the checkpoint store holds, at
that single path, exactly the training-loop state of the most recent pass
(the iteration counter of the last triggered test), with no other path
ever written and no versioned history. -/
theorem C8_checkpoint_path_and_overwrite (te : Int) (env : Option String)
    (le : Int) (B n : Nat) :
    (TrainAndTest_init te env le).test_loop.epilogues.filterMap
        getCkptPathOf = [pyOr env "model" ++ "/ckpt"] ∧
    (0 < te → te.toNat ≤ n →
      (fitRun te env le B n).ckptFS (ckptPath env) =
        some (te.toNat * (n / te.toNat))) ∧
    (0 < te → n < te.toNat →
      (fitRun te env le B n).ckptFS (ckptPath env) = none) ∧
    (∀ p, p ≠ ckptPath env → (fitRun te env le B n).ckptFS p = none) ∧
    (te ≤ 0 → ∀ p, (fitRun te env le B n).ckptFS p = none) := by
  refine ⟨rfl, ?_, ?_, ?_, ?_⟩
  · intro hte hn
    obtain ⟨hL, hlow, hhigh, _, hck⟩ := fitRun_trigger_invariant te env le B hte n
    have hP : (fitRun te env le B n).testPasses = n / te.toNat :=
      (Nat.div_eq_of_lt_le (by rwa [Nat.mul_comm] at hlow)
        (by rwa [Nat.mul_comm] at hhigh)).symm
    have hP0 : (fitRun te env le B n).testPasses ≠ 0 := by
      intro h0
      rw [h0] at hhigh
      simp at hhigh
      omega
    rw [hck, if_neg hP0, hL, hP]
  · intro hte hn
    obtain ⟨hL, hlow, hhigh, _, hck⟩ := fitRun_trigger_invariant te env le B hte n
    have hP0 : (fitRun te env le B n).testPasses = 0 := by
      by_contra h0
      have h1 : te.toNat * 1 ≤ te.toNat * (fitRun te env le B n).testPasses :=
        Nat.mul_le_mul_left _ (by omega)
      rw [Nat.mul_one] at h1
      omega
    rw [hck, if_pos hP0]
  · intro p hp
    by_cases hte : 0 < te
    · exact (fitRun_trigger_invariant te env le B hte n).2.2.2.1 p hp
    · exact (fitRun_no_trigger te env le B (by omega) n).2 p
  · intro hte p
    exact (fitRun_no_trigger te env le B hte n).2 p

/-- Witness for C8: after `fit(5)` with `test_every = 2` and environment
`main` the checkpoint at `main/ckpt` holds the state of the pass at
iteration 4; with `n = 1 < test_every` no checkpoint exists. -/
theorem C8_checkpoint_path_and_overwrite_witness :
    (fitRun 2 (some "main") 10 3 5).ckptFS (ckptPath (some "main")) =
      some ((2 : Int).toNat * (5 / (2 : Int).toNat)) ∧
    (fitRun 2 (some "main") 10 3 1).ckptFS (ckptPath (some "main")) = none :=
  ⟨(C8_checkpoint_path_and_overwrite 2 (some "main") 10 3 5).2.1
      (by decide) (by decide),
   (C8_checkpoint_path_and_overwrite 2 (some "main") 10 3 1).2.2.1
      (by decide) (by decide)⟩

/-- C4: constructing a `Classification` recipe does not succeed for any
model — the keyword arguments its constructor passes to
`TrainAndTest.__init__` include `train_callbacks`, which is not a
parameter of that constructor, and the required parameters `train_fun`,
`test_fun`, `train_loader`, `test_loader` receive no argument, so the
call raises `TypeError` before any accuracy callback is registered. -/
theorem C4_classification_construction_fails :
    bindsKwargs trainAndTestParams classificationSuperKwargs = false ∧
    trainAndTestParams.any
      (fun p => p.name == "train_callbacks") = false ∧
    trainAndTestParams.any
      (fun p => p.name == "test_callbacks") = false ∧
    classificationSuperKwargs.contains "train_fun" = false ∧
    classificationSuperKwargs.contains "test_fun" = false ∧
    classificationSuperKwargs.contains "train_loader" = false ∧
    classificationSuperKwargs.contains "test_loader" = false := by
  decide

/-- C6: for every (input, target) batch, `CrossEntropyLearner.train_step`
clears prior gradients, runs the forward pass and the cross-entropy loss,
backpropagates, applies exactly one optimizer step — in that order — and
returns a mapping with exactly the keys `loss` and `pred` holding the
computed loss and raw prediction; `validation_step` performs the same
forward and cross-entropy computation and returns `{loss, pred}` with no
gradient operation and no optimizer step. -/
theorem C6_cross_entropy_learner_steps {α β γ δ : Type} (modelF : α → β)
    (ce : β → γ → δ) (x : α) (y : γ) (t : OptTape) :
    ((CrossEntropyLearner_train_step modelF ce (x, y) t).2.ops =
      t.ops ++ [TorchOp.zeroGrad, TorchOp.forwardOp, TorchOp.crossEntropyOp,
                TorchOp.backwardOp, TorchOp.stepOp]) ∧
    ((CrossEntropyLearner_train_step modelF ce (x, y) t).2.optSteps =
      t.optSteps + 1) ∧
    ((CrossEntropyLearner_train_step modelF ce (x, y) t).1 =
      [("loss", StepVal.lossVal (ce (modelF x) y)),
       ("pred", StepVal.predVal (modelF x))]) ∧
    ((CrossEntropyLearner_validation_step modelF ce (x, y) t).1 =
      [("loss", StepVal.lossVal (ce (modelF x) y)),
       ("pred", StepVal.predVal (modelF x))]) ∧
    ((CrossEntropyLearner_validation_step modelF ce (x, y) t).2.ops =
      t.ops ++ [TorchOp.forwardOp, TorchOp.crossEntropyOp]) ∧
    ((CrossEntropyLearner_validation_step modelF ce (x, y) t).2.optSteps =
      t.optSteps) ∧
    ((CrossEntropyLearner_validation_step modelF ce (x, y) t).2.gradComputed =
      t.gradComputed) := by
  refine ⟨?_, rfl, rfl, rfl, ?_, rfl, rfl⟩ <;>
    simp [CrossEntropyLearner_train_step, CrossEntropyLearner_validation_step,
          opt_zero_grad, loss_backward, opt_step, model_forward, cross_entropy]

/-- C9: whatever values the caller passes as the `train_callbacks` and
`test_callbacks` arguments of `Classification.__init__` (and hence of
`CrossEntropyClassification.__init__`), the constructor forwards the
fixed lists `[AccAvg()]` and `[AccAvg(post_each_batch=False)]` in their
place — the forwarded lists are constant in the caller's arguments, so
the caller-supplied callbacks are never registered on either loop. -/
theorem C9_caller_callbacks_discarded
    (train_cbs test_cbs : List CallbackDesc) :
    Classification_forwardedCallbacks train_cbs test_cbs =
      ([CallbackDesc.accAvg true], [CallbackDesc.accAvg false]) ∧
    CrossEntropyClassification_forwardedCallbacks train_cbs test_cbs =
      ([CallbackDesc.accAvg true], [CallbackDesc.accAvg false]) ∧
    Classification_forwardedCallbacks train_cbs test_cbs =
      Classification_forwardedCallbacks [] [] :=
  ⟨rfl, rfl, rfl⟩

end Torchelie
